import Mathlib

/-!
Shallow embedding of `aws/resource_aws_ssm_association.go` from the
terraform-provider-aws repository: the SSM association resource schema,
its four lifecycle operations (Create, Read, Update, Delete) and the
shape converters between the declarative configuration and the remote
SSM service's wire shapes.

Go conventions used throughout the embedding:
- a Go slice is `GoSlice α = Option (List α)`: `none` is the nil slice,
  `some l` a non-nil slice with elements `l`;
- a Go pointer field (`*string`, `*ssm.S3OutputLocation`, ...) is an
  `Option`;
- a Go `map[string]T` is an association list `List (String × T)` whose
  keys are distinct (Go map iteration order is irrelevant to every
  property proved here);
- a computation that can hit a Go runtime panic (out-of-range index,
  nil-pointer dereference) returns a `GoResult`.
-/

namespace SsmAssociation

/-- A Go slice: `none` models the nil slice, `some l` a non-nil slice. -/
abbrev GoSlice (α : Type) := Option (List α)

/-- Outcome of a Go computation that may panic at runtime. -/
inductive GoResult (α : Type) where
  | ok (val : α)
  | panic (msg : String)
deriving DecidableEq

/-- Sequencing of possibly-panicking Go computations. -/
def GoResult.bind {α β : Type} (r : GoResult α) (f : α → GoResult β) : GoResult β :=
  match r with
  | .ok v => f v
  | .panic m => .panic m

/-- Go runtime message for indexing an empty slice at position 0. -/
def idxOutOfRangeMsg : String := "runtime error: index out of range [0] with length 0"

/-- Go runtime message for dereferencing a nil pointer. -/
def nilDerefMsg : String := "runtime error: invalid memory address or nil pointer dereference"

/-- One `output_location` block as the framework hands it to this module:
a map with the required `s3_bucket_name` key and the optional
`s3_key_prefix` key (`none` models the key being absent from the map). -/
structure LocationConfig where
  s3BucketName : String
  s3KeyPrefix : Option String
deriving DecidableEq

/-- `ssm.S3OutputLocation` (wire shape): both fields are Go pointers. -/
structure S3OutputLocation where
  outputS3BucketName : Option String
  outputS3KeyPrefix : Option String
deriving DecidableEq

/-- `ssm.InstanceAssociationOutputLocation` (wire shape). -/
structure InstanceAssociationOutputLocation where
  s3Location : Option S3OutputLocation
deriving DecidableEq

/-- One `targets` block: selector key plus list of values. -/
structure Target where
  key : String
  values : List String
deriving DecidableEq

/-- `ssm.Target` (wire shape): the key is a Go pointer. -/
structure SsmTarget where
  key : Option String
  values : List String
deriving DecidableEq

/-- `expandSSMDocumentParameters`: each string value becomes a
single-element value list under the same key. -/
def expandSSMDocumentParameters (params : List (String × String)) : List (String × List String) :=
  params.map (fun kv => (kv.1, [kv.2]))

/-- Modelled from the spec: `expandAwsSsmTargets` is defined elsewhere in
the repository (not under the sources embedded here); per the spec it is
the order-preserving structural conversion of target blocks into the
remote shape, unchanged in structure. -/
def expandAwsSsmTargets (ts : List Target) : List SsmTarget :=
  ts.map (fun t => { key := some t.key, values := t.values })

/-- Modelled from the spec: `flattenAwsSsmTargets` is defined elsewhere in
the repository; per the spec it is the order-preserving structural
conversion of remote targets back into declarative blocks. -/
def flattenAwsSsmTargets (ts : List SsmTarget) : List Target :=
  ts.map (fun t => { key := t.key.getD "", values := t.values })

/-- `expandSSMAssociationOutputLocation`: returns nil only for a nil
slice; a non-nil slice is indexed at 0 unconditionally (`config[0]`),
which panics when the slice is empty. The `s3_key_prefix` field is set
exactly when the key is present in the block map. -/
def expandSSMAssociationOutputLocation (config : GoSlice LocationConfig) :
    GoResult (Option InstanceAssociationOutputLocation) :=
  match config with
  | none => .ok none
  | some [] => .panic idxOutOfRangeMsg
  | some (locationConfig :: _) =>
    let s3OutputLocation : S3OutputLocation :=
      { outputS3BucketName := some locationConfig.s3BucketName
        outputS3KeyPrefix :=
          match locationConfig.s3KeyPrefix with
          | some v => some v
          | none => none }
    .ok (some { s3Location := some s3OutputLocation })

/-- `flattenAwsSsmAssociationOutoutLocation` (source spelling kept):
nil input flattens to the nil slice; otherwise `location.S3Location` and
`.OutputS3BucketName` are dereferenced unconditionally (a nil pointer in
either position panics), and the key prefix is included in the block
only when present on the remote object. -/
def flattenAwsSsmAssociationOutoutLocation (location : Option InstanceAssociationOutputLocation) :
    GoResult (GoSlice LocationConfig) :=
  match location with
  | none => .ok none
  | some loc =>
    match loc.s3Location with
    | none => .panic nilDerefMsg
    | some s3 =>
      match s3.outputS3BucketName with
      | none => .panic nilDerefMsg
      | some bucket =>
        let item : LocationConfig :=
          { s3BucketName := bucket
            s3KeyPrefix :=
              match s3.outputS3KeyPrefix with
              | some p => some p
              | none => none }
        .ok (some [item])

/-- A remote-call error: `code` is the AWS service error code when the
error is an API error (`none` for transport/other errors), `message` its
message text. -/
structure AwsErr where
  code : Option String
  message : String
deriving DecidableEq

/-- Whether `needle` occurs as a contiguous sublist of `haystack`
(`strings.Contains` on the character level; the empty needle always
matches). -/
def listIsSubAt {α : Type} [BEq α] (needle : List α) : List α → Bool
  | [] => needle.isEmpty
  | a :: rest => needle.isPrefixOf (a :: rest) || listIsSubAt needle rest

/-- Modelled from the spec: `isAWSErr` is defined elsewhere in the
repository (not under the sources embedded here). Per the spec's error
taxonomy, an error matches when it is a service error tagged with exactly
the given code and its message contains the given substring; the empty
substring — the only one this module passes — matches every message, and
a non-API error never matches. -/
def isAWSErr (err : AwsErr) (code : String) (message : String) : Bool :=
  match err.code with
  | some c => c == code && listIsSubAt message.toList err.message.toList
  | none => false

/-- `ssm.ErrCodeAssociationDoesNotExist`. -/
def errCodeAssociationDoesNotExist : String := "AssociationDoesNotExist"

/-- The string `fmt.Errorf("... %s", err)` interpolates for a remote
error (AWS API errors render as "code: message"). -/
def AwsErr.errorString (e : AwsErr) : String :=
  match e.code with
  | some c => c ++ ": " ++ e.message
  | none => e.message

/-- The managed association record as seen through the framework's
`ResourceData` view: the record identifier plus one field per schema
attribute. Unset strings are `""` (the Go zero value the framework
reports for an unset attribute), unset maps/lists are empty. The
`output_location` value keeps the Go nil/non-nil slice distinction
because the expand converter branches on it. -/
structure ResourceData where
  id : String
  associationName : String
  associationId : String
  instanceId : String
  documentVersion : String
  name : String
  parameters : List (String × String)
  scheduleExpression : String
  outputLocation : GoSlice LocationConfig
  targets : List Target
deriving DecidableEq

/-- `d.GetOk` on a list attribute: ok exactly when the list is non-empty. -/
def getOkList {α : Type} (l : GoSlice α) : Bool :=
  match l with
  | some (_ :: _) => true
  | _ => false

/-- `ssm.CreateAssociationInput`: every field is a Go pointer / nil-able
collection, `none`/`[]`-free fields left unset stay `none`. -/
structure CreateAssociationInput where
  name : Option String := none
  associationName : Option String := none
  instanceId : Option String := none
  documentVersion : Option String := none
  scheduleExpression : Option String := none
  parameters : Option (List (String × List String)) := none
  targets : Option (List SsmTarget) := none
  outputLocation : Option InstanceAssociationOutputLocation := none
deriving DecidableEq

/-- `ssm.UpdateAssociationInput`. -/
structure UpdateAssociationInput where
  associationId : Option String := none
  associationName : Option String := none
  documentVersion : Option String := none
  scheduleExpression : Option String := none
  parameters : Option (List (String × List String)) := none
  targets : Option (List SsmTarget) := none
  outputLocation : Option InstanceAssociationOutputLocation := none
deriving DecidableEq

/-- `ssm.DescribeAssociationInput`. -/
structure DescribeAssociationInput where
  associationId : Option String
deriving DecidableEq

/-- `ssm.DeleteAssociationInput`. -/
structure DeleteAssociationInput where
  associationId : Option String
deriving DecidableEq

/-- `ssm.AssociationDescription`: the descriptor fields this module
reads; every scalar is a Go pointer. -/
structure AssociationDescription where
  associationId : Option String := none
  associationName : Option String := none
  instanceId : Option String := none
  name : Option String := none
  parameters : List (String × List String) := []
  scheduleExpression : Option String := none
  documentVersion : Option String := none
  targets : List SsmTarget := []
  outputLocation : Option InstanceAssociationOutputLocation := none
deriving DecidableEq

/-- `ssm.CreateAssociationOutput`. -/
structure CreateAssociationOutput where
  associationDescription : Option AssociationDescription
deriving DecidableEq

/-- `ssm.DescribeAssociationOutput`. -/
structure DescribeAssociationOutput where
  associationDescription : Option AssociationDescription
deriving DecidableEq

/-- The remote SSM service client (`ssmconn`): one function per remote
call this module performs, each returning a response or an error. -/
structure RemoteService where
  createAssociation : CreateAssociationInput → Except AwsErr CreateAssociationOutput
  describeAssociation : DescribeAssociationInput → Except AwsErr DescribeAssociationOutput
  updateAssociation : UpdateAssociationInput → Except AwsErr Unit
  deleteAssociation : DeleteAssociationInput → Except AwsErr Unit

/-- Outcome of one lifecycle operation: success with the record as the
operation leaves it, a returned error, or a Go runtime panic. -/
inductive OpOutcome where
  | ok (d : ResourceData)
  | err (msg : String)
  | panic (msg : String)
deriving DecidableEq

/-- The framework's storage coercion when Read writes the remote
multi-valued parameters map into the string-typed `parameters` map:
each (single-element) value list collapses to its first element. -/
def storeParameters (ps : List (String × List String)) : List (String × String) :=
  ps.map (fun kv => (kv.1, kv.2.headD ""))

/-- `resourceAwsSsmAssociationRead`: describe by the record identifier;
the `AssociationDoesNotExist` error code clears the identifier and
succeeds, any other error is wrapped and returned; a nil descriptor on a
successful call is a returned error; otherwise every observed field is
overwritten from the descriptor (targets and output location through the
flatten converters; flattening the output location can panic). -/
def resourceAwsSsmAssociationRead (d : ResourceData) (remote : RemoteService) : OpOutcome :=
  match remote.describeAssociation { associationId := some d.id } with
  | .error e =>
    if isAWSErr e errCodeAssociationDoesNotExist "" then
      .ok { d with id := "" }
    else
      .err ("[ERROR] Error reading SSM association: " ++ e.errorString)
  | .ok resp =>
    match resp.associationDescription with
    | none => .err "[ERROR] AssociationDescription was nil"
    | some association =>
      match flattenAwsSsmAssociationOutoutLocation association.outputLocation with
      | .panic m => .panic m
      | .ok flatLoc =>
        .ok { d with
          associationName := association.associationName.getD ""
          instanceId := association.instanceId.getD ""
          name := association.name.getD ""
          parameters := storeParameters association.parameters
          associationId := association.associationId.getD ""
          scheduleExpression := association.scheduleExpression.getD ""
          documentVersion := association.documentVersion.getD ""
          targets := flattenAwsSsmTargets association.targets
          outputLocation := flatLoc }

/-- The `ssm.CreateAssociationInput` built by Create: `name` always,
every optional field exactly when `d.GetOk` reports it set (non-empty),
the collection fields through their expand converters. The output
location expansion is only reached when `GetOk` was true. -/
def mkCreateAssociationInput (d : ResourceData) : GoResult CreateAssociationInput :=
  let inp : CreateAssociationInput :=
    { name := some d.name
      associationName := if d.associationName == "" then none else some d.associationName
      instanceId := if d.instanceId == "" then none else some d.instanceId
      documentVersion := if d.documentVersion == "" then none else some d.documentVersion
      scheduleExpression := if d.scheduleExpression == "" then none else some d.scheduleExpression
      parameters := if d.parameters.isEmpty then none else some (expandSSMDocumentParameters d.parameters)
      targets := if d.targets.isEmpty then none else some (expandAwsSsmTargets d.targets)
      outputLocation := none }
  if getOkList d.outputLocation then
    match expandSSMAssociationOutputLocation d.outputLocation with
    | .ok loc => .ok { inp with outputLocation := loc }
    | .panic m => .panic m
  else
    .ok inp

/-- `resourceAwsSsmAssociationCreate`: build the request, call the
service; a call error is wrapped and returned, a nil descriptor is a
returned error; otherwise the descriptor's `AssociationId` pointer is
dereferenced (panicking when nil), stored as the record identifier and
as `association_id`, and the operation delegates to Read. -/
def resourceAwsSsmAssociationCreate (d : ResourceData) (remote : RemoteService) : OpOutcome :=
  match mkCreateAssociationInput d with
  | .panic m => .panic m
  | .ok associationInput =>
    match remote.createAssociation associationInput with
    | .error e => .err ("[ERROR] Error creating SSM association: " ++ e.errorString)
    | .ok resp =>
      match resp.associationDescription with
      | none => .err "[ERROR] AssociationDescription was nil"
      | some association =>
        match association.associationId with
        | none => .panic nilDerefMsg
        | some newId =>
          resourceAwsSsmAssociationRead { d with id := newId, associationId := newId } remote

/-- `d.HasChange` over the six attributes Update tracks: true when any
of them differs between the previously observed (`old`) and desired
(`new`) record. -/
def hasChangesUpdate (old new : ResourceData) : Bool :=
  decide (old.associationName ≠ new.associationName) ||
  decide (old.documentVersion ≠ new.documentVersion) ||
  decide (old.scheduleExpression ≠ new.scheduleExpression) ||
  decide (old.parameters ≠ new.parameters) ||
  decide (old.outputLocation ≠ new.outputLocation) ||
  decide (old.targets ≠ new.targets)

/-- The `ssm.UpdateAssociationInput` built by Update: always carries
`association_id`; the optional fields are populated — each exactly when
currently set, mirroring Create — only when some tracked attribute
changed. -/
def mkUpdateAssociationInput (old new : ResourceData) : GoResult UpdateAssociationInput :=
  let base : UpdateAssociationInput := { associationId := some new.associationId }
  if hasChangesUpdate old new then
    let inp : UpdateAssociationInput :=
      { base with
        associationName := if new.associationName == "" then none else some new.associationName
        documentVersion := if new.documentVersion == "" then none else some new.documentVersion
        scheduleExpression := if new.scheduleExpression == "" then none else some new.scheduleExpression
        parameters := if new.parameters.isEmpty then none else some (expandSSMDocumentParameters new.parameters)
        targets := if new.targets.isEmpty then none else some (expandAwsSsmTargets new.targets) }
    if getOkList new.outputLocation then
      match expandSSMAssociationOutputLocation new.outputLocation with
      | .ok loc => .ok { inp with outputLocation := loc }
      | .panic m => .panic m
    else
      .ok inp
  else
    .ok base

/-- `resourceAwsSsmAssociationUpdate`: build the request from the
previously observed and desired record, call the service; a call error
is wrapped and returned, otherwise the operation delegates to Read on
the desired record. -/
def resourceAwsSsmAssociationUpdate (old new : ResourceData) (remote : RemoteService) : OpOutcome :=
  match mkUpdateAssociationInput old new with
  | .panic m => .panic m
  | .ok associationInput =>
    match remote.updateAssociation associationInput with
    | .error e => .err ("[ERROR] Error updating SSM association: " ++ e.errorString)
    | .ok _ => resourceAwsSsmAssociationRead new remote

/-- `resourceAwsSsmAssociationDelete`: delete by `association_id`; a
call error is wrapped and returned, success leaves the record as is. -/
def resourceAwsSsmAssociationDelete (d : ResourceData) (remote : RemoteService) : OpOutcome :=
  match remote.deleteAssociation { associationId := some d.associationId } with
  | .error e => .err ("[ERROR] Error deleting SSM association: " ++ e.errorString)
  | .ok _ => .ok d

/-- The value types used by this resource's schema declaration. -/
inductive ValueType where
  | string
  | map
  | list
deriving DecidableEq

/-- A leaf attribute inside a nested block (`Elem` resource): type,
required/optional flags, and for list leaves the element value type. -/
structure SchemaLeaf where
  type : ValueType
  required : Bool := false
  optional : Bool := false
  elemType : Option ValueType := none
deriving DecidableEq

/-- A top-level schema attribute: type, the framework flags declared in
the source, the list item bound, and the nested block's leaf fields when
the attribute is a block list. -/
structure SchemaAttr where
  type : ValueType
  required : Bool := false
  optional : Bool := false
  computed : Bool := false
  forceNew : Bool := false
  maxItems : Option Nat := none
  elemFields : Option (List (String × SchemaLeaf)) := none
deriving DecidableEq

/-- The schema map returned by `resourceAwsSsmAssociation`, field for
field in source order. -/
def resourceAwsSsmAssociationSchema : List (String × SchemaAttr) :=
  [ ("association_name", { type := .string, optional := true }),
    ("association_id", { type := .string, computed := true }),
    ("instance_id", { type := .string, forceNew := true, optional := true }),
    ("document_version", { type := .string, optional := true, computed := true }),
    ("name", { type := .string, forceNew := true, required := true }),
    ("parameters", { type := .map, optional := true, computed := true }),
    ("schedule_expression", { type := .string, optional := true }),
    ("output_location",
      { type := .list, maxItems := some 1, optional := true,
        elemFields := some
          [ ("s3_bucket_name", { type := .string, required := true }),
            ("s3_key_prefix", { type := .string, optional := true }) ] }),
    ("targets",
      { type := .list, optional := true, computed := true, maxItems := some 5,
        elemFields := some
          [ ("key", { type := .string, required := true }),
            ("values", { type := .list, required := true, elemType := some .string }) ] }) ]

/-- The schema version declared on the resource. -/
def ssmAssociationSchemaVersion : Nat := 1

/-!  Theorems settling the claims. -/

/-- Claim C7: the parameters expand converter keeps exactly the key set
of the input mapping, maps every key to the single-element sequence
holding that key's value, and maps the empty mapping to the empty
mapping. -/
theorem expand_parameters_pointwise (m : List (String × String)) :
    (expandSSMDocumentParameters m).map Prod.fst = m.map Prod.fst ∧
    (∀ k, (expandSSMDocumentParameters m).lookup k = (m.lookup k).map (fun v => [v])) ∧
    expandSSMDocumentParameters [] = [] := by
  refine ⟨?_, ?_, rfl⟩
  · simp [expandSSMDocumentParameters]
  · intro k
    induction m with
    | nil => rfl
    | cons kv rest ih =>
      obtain ⟨k1, v1⟩ := kv
      simp only [expandSSMDocumentParameters, List.map_cons, List.lookup] at *
      cases h : k == k1 <;> simp [h, ih]

/-- Claim C2 counterexample: on the empty non-nil list the output-location
expand converter does not evaluate to "no object" — it hits the
unconditional index at position 0 and panics. -/
theorem expand_output_location_empty_list_panics :
    expandSSMAssociationOutputLocation (some ([] : List LocationConfig)) =
      GoResult.panic idxOutOfRangeMsg ∧
    expandSSMAssociationOutputLocation (some ([] : List LocationConfig)) ≠
      GoResult.ok none := by
  exact ⟨rfl, by decide⟩

/-- Claim C2 (amended): only the nil slice makes the output-location
expand converter produce no object without error; the empty non-nil
slice is indexed unconditionally and aborts with an index-out-of-range
panic. -/
theorem expand_output_location_nil_and_empty :
    expandSSMAssociationOutputLocation none = GoResult.ok none ∧
    expandSSMAssociationOutputLocation (some ([] : List LocationConfig)) =
      GoResult.panic idxOutOfRangeMsg :=
  ⟨rfl, rfl⟩

/-- Claim C3 counterexample: the declarative value holding zero blocks in
a non-nil list is within the claim's "list of at most one block", yet
flatten ∘ expand does not return it — expansion panics on it. -/
theorem output_location_roundtrip_fails_on_empty_list :
    GoResult.bind (expandSSMAssociationOutputLocation (some ([] : List LocationConfig)))
        flattenAwsSsmAssociationOutoutLocation =
      GoResult.panic idxOutOfRangeMsg ∧
    GoResult.bind (expandSSMAssociationOutputLocation (some ([] : List LocationConfig)))
        flattenAwsSsmAssociationOutoutLocation ≠
      GoResult.ok (some ([] : List LocationConfig)) := by
  exact ⟨rfl, by decide⟩

/-- Claim C3 (amended): flatten ∘ expand is the identity on the nil
slice and on every one-block list, and expand ∘ flatten is the identity
on the absent remote location and on every remote location whose
S3Location and bucket name are present; the zero-block non-nil list is
excluded, since expansion aborts on it. -/
theorem output_location_roundtrips (b : LocationConfig)
    (y : InstanceAssociationOutputLocation) (s3 : S3OutputLocation) (bucket : String)
    (hy : y.s3Location = some s3) (hb : s3.outputS3BucketName = some bucket) :
    GoResult.bind (expandSSMAssociationOutputLocation none)
        flattenAwsSsmAssociationOutoutLocation = GoResult.ok (none : GoSlice LocationConfig) ∧
    GoResult.bind (expandSSMAssociationOutputLocation (some [b]))
        flattenAwsSsmAssociationOutoutLocation = GoResult.ok (some [b]) ∧
    GoResult.bind (flattenAwsSsmAssociationOutoutLocation none)
        expandSSMAssociationOutputLocation =
      GoResult.ok (none : Option InstanceAssociationOutputLocation) ∧
    GoResult.bind (flattenAwsSsmAssociationOutoutLocation (some y))
        expandSSMAssociationOutputLocation = GoResult.ok (some y) := by
  obtain ⟨bn, pfx⟩ := b
  obtain ⟨sl⟩ := y
  obtain ⟨obn, opfx⟩ := s3
  simp only [InstanceAssociationOutputLocation.s3Location] at hy
  simp only [S3OutputLocation.outputS3BucketName] at hb
  subst hy; subst hb
  refine ⟨rfl, ?_, rfl, ?_⟩ <;>
    cases pfx <;> cases opfx <;>
      simp [GoResult.bind, expandSSMAssociationOutputLocation,
        flattenAwsSsmAssociationOutoutLocation]

/-- Witness for the amended claim C3 at concrete blocks. -/
theorem output_location_roundtrips_witness :
    GoResult.bind (expandSSMAssociationOutputLocation (some [⟨"b", some "p"⟩]))
        flattenAwsSsmAssociationOutoutLocation = GoResult.ok (some [⟨"b", some "p"⟩]) ∧
    GoResult.bind (flattenAwsSsmAssociationOutoutLocation (some ⟨some ⟨some "bk", none⟩⟩))
        expandSSMAssociationOutputLocation = GoResult.ok (some ⟨some ⟨some "bk", none⟩⟩) :=
  ⟨(output_location_roundtrips ⟨"b", some "p"⟩ ⟨some ⟨some "bk", none⟩⟩
      ⟨some "bk", none⟩ "bk" rfl rfl).2.1,
   (output_location_roundtrips ⟨"b", some "p"⟩ ⟨some ⟨some "bk", none⟩⟩
      ⟨some "bk", none⟩ "bk" rfl rfl).2.2.2⟩

/-- Claim C10: the output-location flatten converter maps the absent
remote location to the nil slice; when S3Location and its bucket name
are both present it returns a list of exactly one block; and it
dereferences both pointers unconditionally, panicking when either
S3Location or the bucket name is nil. -/
theorem flatten_output_location_totality (loc : InstanceAssociationOutputLocation) :
    flattenAwsSsmAssociationOutoutLocation none = GoResult.ok none ∧
    (∀ s3 bucket, loc.s3Location = some s3 → s3.outputS3BucketName = some bucket →
      flattenAwsSsmAssociationOutoutLocation (some loc) =
        GoResult.ok (some [{ s3BucketName := bucket, s3KeyPrefix := s3.outputS3KeyPrefix }])) ∧
    (loc.s3Location = none →
      flattenAwsSsmAssociationOutoutLocation (some loc) = GoResult.panic nilDerefMsg) ∧
    (∀ s3, loc.s3Location = some s3 → s3.outputS3BucketName = none →
      flattenAwsSsmAssociationOutoutLocation (some loc) = GoResult.panic nilDerefMsg) := by
  refine ⟨rfl, ?_, ?_, ?_⟩
  · intro s3 bucket h1 h2
    cases hp : s3.outputS3KeyPrefix <;>
      simp [flattenAwsSsmAssociationOutoutLocation, h1, h2, hp]
  · intro h1
    simp [flattenAwsSsmAssociationOutoutLocation, h1]
  · intro s3 h1 h2
    simp [flattenAwsSsmAssociationOutoutLocation, h1, h2]

/-- Witness for claim C10 at concrete remote locations. -/
theorem flatten_output_location_totality_witness :
    flattenAwsSsmAssociationOutoutLocation
        (some { s3Location := some { outputS3BucketName := some "b", outputS3KeyPrefix := none } }) =
      GoResult.ok (some [{ s3BucketName := "b", s3KeyPrefix := none }]) ∧
    flattenAwsSsmAssociationOutoutLocation (some { s3Location := none }) =
      GoResult.panic nilDerefMsg ∧
    flattenAwsSsmAssociationOutoutLocation
        (some { s3Location := some { outputS3BucketName := none, outputS3KeyPrefix := some "p" } }) =
      GoResult.panic nilDerefMsg :=
  ⟨(flatten_output_location_totality
      { s3Location := some { outputS3BucketName := some "b", outputS3KeyPrefix := none } }).2.1
      _ "b" rfl rfl,
   (flatten_output_location_totality { s3Location := none }).2.2.1 rfl,
   (flatten_output_location_totality
      { s3Location := some { outputS3BucketName := none, outputS3KeyPrefix := some "p" } }).2.2.2
      _ rfl rfl⟩

/-- A record with every attribute populated, used to instantiate the
lifecycle theorems. -/
def sampleRecord : ResourceData :=
  { id := "assoc-missing"
    associationName := "an"
    associationId := "assoc-1"
    instanceId := "i-1"
    documentVersion := "2"
    name := "doc1"
    parameters := [("k", "v")]
    scheduleExpression := "rate(1 day)"
    outputLocation := some [⟨"bkt", some "pre"⟩]
    targets := [⟨"tag:Name", ["web"]⟩] }

/-- A second fully populated record, distinct from `sampleRecord`. -/
def sampleRecord2 : ResourceData :=
  { id := "assoc-2"
    associationName := "an2"
    associationId := "assoc-2"
    instanceId := "i-2"
    documentVersion := "3"
    name := "doc2"
    parameters := [("k2", "v2")]
    scheduleExpression := "rate(2 days)"
    outputLocation := some [⟨"bkt2", none⟩]
    targets := [⟨"tag:Env", ["prod", "dev"]⟩] }

/-- A record with only the required `name` set. -/
def minRecord : ResourceData :=
  { id := ""
    associationName := ""
    associationId := ""
    instanceId := ""
    documentVersion := ""
    name := "doc1"
    parameters := []
    scheduleExpression := ""
    outputLocation := none
    targets := [] }

/-- The `AssociationDoesNotExist` service error. -/
def nfErr : AwsErr := { code := some "AssociationDoesNotExist", message := "does not exist" }

/-- A service error with a different code. -/
def throttleErr : AwsErr := { code := some "ThrottlingException", message := "rate exceeded" }

/-- A remote service in which every call fails with the not-found code. -/
def nfRemote : RemoteService :=
  { createAssociation := fun _ => Except.error nfErr
    describeAssociation := fun _ => Except.error nfErr
    updateAssociation := fun _ => Except.error nfErr
    deleteAssociation := fun _ => Except.error nfErr }

/-- A remote service in which every call fails with a throttling error. -/
def throttleRemote : RemoteService :=
  { createAssociation := fun _ => Except.error throttleErr
    describeAssociation := fun _ => Except.error throttleErr
    updateAssociation := fun _ => Except.error throttleErr
    deleteAssociation := fun _ => Except.error throttleErr }

/-- A remote service whose calls succeed but whose responses carry no
association descriptor. -/
def nilDescRemote : RemoteService :=
  { createAssociation := fun _ => Except.ok { associationDescription := none }
    describeAssociation := fun _ => Except.ok { associationDescription := none }
    updateAssociation := fun _ => Except.ok ()
    deleteAssociation := fun _ => Except.ok () }

/-- Claim C1: when DescribeAssociation fails with the
`AssociationDoesNotExist` code, Read clears the record identifier and
succeeds; on any other remote-call error it returns the wrapping
terminal error carrying the underlying cause. -/
theorem read_notfound_and_error_wrapping (d : ResourceData) (remote : RemoteService)
    (e : AwsErr)
    (hcall : remote.describeAssociation { associationId := some d.id } = Except.error e) :
    (isAWSErr e errCodeAssociationDoesNotExist "" = true →
      resourceAwsSsmAssociationRead d remote = OpOutcome.ok { d with id := "" }) ∧
    (isAWSErr e errCodeAssociationDoesNotExist "" = false →
      resourceAwsSsmAssociationRead d remote =
        OpOutcome.err ("[ERROR] Error reading SSM association: " ++ e.errorString)) := by
  constructor <;> intro h <;> simp [resourceAwsSsmAssociationRead, hcall, h]

/-- Witness for claim C1: both branches at concrete records and errors. -/
theorem read_notfound_and_error_wrapping_witness :
    resourceAwsSsmAssociationRead sampleRecord nfRemote =
      OpOutcome.ok { sampleRecord with id := "" } ∧
    resourceAwsSsmAssociationRead sampleRecord throttleRemote =
      OpOutcome.err ("[ERROR] Error reading SSM association: " ++ AwsErr.errorString throttleErr) :=
  ⟨(read_notfound_and_error_wrapping sampleRecord nfRemote nfErr rfl).1 (by decide),
   (read_notfound_and_error_wrapping sampleRecord throttleRemote throttleErr rfl).2 (by decide)⟩

/-- Claim C9: on Read's not-found path the only mutation of the record
is clearing its identifier — every other field keeps its prior value. -/
theorem read_notfound_frame (d : ResourceData) (remote : RemoteService) (e : AwsErr)
    (hcall : remote.describeAssociation { associationId := some d.id } = Except.error e)
    (hnf : isAWSErr e errCodeAssociationDoesNotExist "" = true) :
    ∃ r, resourceAwsSsmAssociationRead d remote = OpOutcome.ok r ∧
      r.id = "" ∧ r.associationName = d.associationName ∧ r.instanceId = d.instanceId ∧
      r.name = d.name ∧ r.parameters = d.parameters ∧ r.associationId = d.associationId ∧
      r.scheduleExpression = d.scheduleExpression ∧ r.documentVersion = d.documentVersion ∧
      r.targets = d.targets ∧ r.outputLocation = d.outputLocation := by
  refine ⟨{ d with id := "" }, ?_, rfl, rfl, rfl, rfl, rfl, rfl, rfl, rfl, rfl, rfl⟩
  simp [resourceAwsSsmAssociationRead, hcall, hnf]

/-- Witness for claim C9 at a concrete record. -/
theorem read_notfound_frame_witness :
    ∃ r, resourceAwsSsmAssociationRead sampleRecord2 nfRemote = OpOutcome.ok r ∧
      r.id = "" ∧ r.associationName = sampleRecord2.associationName ∧
      r.instanceId = sampleRecord2.instanceId ∧ r.name = sampleRecord2.name ∧
      r.parameters = sampleRecord2.parameters ∧ r.associationId = sampleRecord2.associationId ∧
      r.scheduleExpression = sampleRecord2.scheduleExpression ∧
      r.documentVersion = sampleRecord2.documentVersion ∧
      r.targets = sampleRecord2.targets ∧ r.outputLocation = sampleRecord2.outputLocation :=
  read_notfound_frame sampleRecord2 nfRemote nfErr rfl (by decide)

/-- Claim C6: in Create as in Read, a successful remote call whose
response carries no association descriptor yields the terminal error
"[ERROR] AssociationDescription was nil" — not the not-found treatment,
and no field of the record is assigned (no updated record is produced). -/
theorem nil_association_description_is_terminal (d : ResourceData) (remote : RemoteService) :
    (∀ inp, mkCreateAssociationInput d = GoResult.ok inp →
      remote.createAssociation inp = Except.ok { associationDescription := none } →
      resourceAwsSsmAssociationCreate d remote =
        OpOutcome.err "[ERROR] AssociationDescription was nil") ∧
    (remote.describeAssociation { associationId := some d.id } =
        Except.ok { associationDescription := none } →
      resourceAwsSsmAssociationRead d remote =
        OpOutcome.err "[ERROR] AssociationDescription was nil") := by
  constructor
  · intro inp h1 h2
    simp [resourceAwsSsmAssociationCreate, h1, h2]
  · intro h
    simp [resourceAwsSsmAssociationRead, h]

/-- Witness for claim C6: both operations against a service answering
with descriptor-free responses. -/
theorem nil_association_description_is_terminal_witness :
    resourceAwsSsmAssociationCreate minRecord nilDescRemote =
      OpOutcome.err "[ERROR] AssociationDescription was nil" ∧
    resourceAwsSsmAssociationRead sampleRecord nilDescRemote =
      OpOutcome.err "[ERROR] AssociationDescription was nil" :=
  ⟨(nil_association_description_is_terminal minRecord nilDescRemote).1
      { name := some "doc1" } rfl rfl,
   (nil_association_description_is_terminal sampleRecord nilDescRemote).2 rfl⟩

/-- A remote service whose CreateAssociation answers with a descriptor
carrying the empty identifier, and whose DescribeAssociation answers
with an all-defaults descriptor. -/
def emptyIdRemote : RemoteService :=
  { createAssociation := fun _ =>
      Except.ok { associationDescription := some { associationId := some "" } }
    describeAssociation := fun _ =>
      Except.ok { associationDescription := some ({} : AssociationDescription) }
    updateAssociation := fun _ => Except.ok ()
    deleteAssociation := fun _ => Except.ok () }

/-- The record Read leaves behind after refreshing from an all-defaults
descriptor on a record whose identifier was set to the empty string. -/
def emptyRecord : ResourceData :=
  { id := ""
    associationName := ""
    associationId := ""
    instanceId := ""
    documentVersion := ""
    name := ""
    parameters := []
    scheduleExpression := ""
    outputLocation := none
    targets := [] }

/-- A remote service whose calls succeed with descriptor identifier
"assoc-1". -/
def createOkRemote : RemoteService :=
  { createAssociation := fun _ =>
      Except.ok { associationDescription := some { associationId := some "assoc-1" } }
    describeAssociation := fun _ =>
      Except.ok { associationDescription := some { associationId := some "assoc-1" } }
    updateAssociation := fun _ => Except.ok ()
    deleteAssociation := fun _ => Except.ok () }

/-- Claim C5 counterexample: a successful CreateAssociation response
whose descriptor carries the empty identifier is not a terminal failure
— Create stores the empty identifier and delegates to Read, ending in
success; the code performs no emptiness check on the identifier. -/
theorem create_accepts_empty_association_id :
    resourceAwsSsmAssociationCreate minRecord emptyIdRemote = OpOutcome.ok emptyRecord ∧
    emptyRecord.id = "" :=
  ⟨rfl, rfl⟩

/-- Claim C5 (amended): on a successful remote call, a present
descriptor with a present identifier pointer — empty or not — makes that
identifier the record identifier and `association_id` and Create
delegates to Read; a missing descriptor is the terminal
nil-descriptor error with no identifier assigned; a nil identifier
pointer is dereferenced and panics. -/
theorem create_success_behavior (d : ResourceData) (remote : RemoteService)
    (inp : CreateAssociationInput) (resp : CreateAssociationOutput)
    (h1 : mkCreateAssociationInput d = GoResult.ok inp)
    (h2 : remote.createAssociation inp = Except.ok resp) :
    (∀ assoc newId, resp.associationDescription = some assoc →
      assoc.associationId = some newId →
      resourceAwsSsmAssociationCreate d remote =
        resourceAwsSsmAssociationRead { d with id := newId, associationId := newId } remote) ∧
    (resp.associationDescription = none →
      resourceAwsSsmAssociationCreate d remote =
        OpOutcome.err "[ERROR] AssociationDescription was nil") ∧
    (∀ assoc, resp.associationDescription = some assoc → assoc.associationId = none →
      resourceAwsSsmAssociationCreate d remote = OpOutcome.panic nilDerefMsg) := by
  refine ⟨?_, ?_, ?_⟩
  · intro assoc newId h3 h4
    simp [resourceAwsSsmAssociationCreate, h1, h2, h3, h4]
  · intro h3
    simp [resourceAwsSsmAssociationCreate, h1, h2, h3]
  · intro assoc h3 h4
    simp [resourceAwsSsmAssociationCreate, h1, h2, h3, h4]

/-- Witness for the amended claim C5: identifier assignment and
delegation to Read at a concrete record and service. -/
theorem create_success_behavior_witness :
    resourceAwsSsmAssociationCreate minRecord createOkRemote =
      resourceAwsSsmAssociationRead
        { minRecord with id := "assoc-1", associationId := "assoc-1" } createOkRemote :=
  (create_success_behavior minRecord createOkRemote { name := some "doc1" }
      { associationDescription := some { associationId := some "assoc-1" } } rfl rfl).1
    _ "assoc-1" rfl rfl

/-- Claim C8: the declared schema marks `name` and `instance_id` as
force-new (the framework routes any change to them through
destroy+recreate, never Update), bounds `targets` at 5 blocks and
`output_location` at 1 block. -/
theorem schema_forcenew_and_maxitems :
    ((resourceAwsSsmAssociationSchema.lookup "name").map SchemaAttr.forceNew = some true) ∧
    ((resourceAwsSsmAssociationSchema.lookup "instance_id").map SchemaAttr.forceNew = some true) ∧
    ((resourceAwsSsmAssociationSchema.lookup "targets").bind SchemaAttr.maxItems = some 5) ∧
    ((resourceAwsSsmAssociationSchema.lookup "output_location").bind SchemaAttr.maxItems = some 1) := by
  decide

/-- Spec-side ("set if present") description of the output-location
request field: the expansion of the first configured block when one is
present, nothing otherwise. -/
def specOutputLocationObject (c : GoSlice LocationConfig) : Option InstanceAssociationOutputLocation :=
  match c with
  | some (b :: _) =>
    some { s3Location := some { outputS3BucketName := some b.s3BucketName, outputS3KeyPrefix := b.s3KeyPrefix } }
  | _ => none

/-- Claim C4: when none of the six tracked attributes changed, the
update request carries only `association_id`; when some attribute
changed, every optional field is populated exactly when it is currently
set (Create's "set if present" rule, not "set if changed"); and once the
remote update call succeeds, Update delegates to Read. -/
theorem update_request_population_and_delegation (old new : ResourceData)
    (remote : RemoteService) :
    (hasChangesUpdate old new = false →
      mkUpdateAssociationInput old new =
        GoResult.ok { associationId := some new.associationId }) ∧
    (hasChangesUpdate old new = true →
      mkUpdateAssociationInput old new = GoResult.ok
        { associationId := some new.associationId
          associationName :=
            if new.associationName == "" then none else some new.associationName
          documentVersion :=
            if new.documentVersion == "" then none else some new.documentVersion
          scheduleExpression :=
            if new.scheduleExpression == "" then none else some new.scheduleExpression
          parameters :=
            if new.parameters.isEmpty then none
            else some (expandSSMDocumentParameters new.parameters)
          targets :=
            if new.targets.isEmpty then none else some (expandAwsSsmTargets new.targets)
          outputLocation := specOutputLocationObject new.outputLocation }) ∧
    (∀ inp, mkUpdateAssociationInput old new = GoResult.ok inp →
      remote.updateAssociation inp = Except.ok () →
      resourceAwsSsmAssociationUpdate old new remote =
        resourceAwsSsmAssociationRead new remote) := by
  refine ⟨?_, ?_, ?_⟩
  · intro h
    simp [mkUpdateAssociationInput, h]
  · intro h
    rcases hol : new.outputLocation with _ | (_ | ⟨b, rest⟩)
    · simp [mkUpdateAssociationInput, h, hol, getOkList,
        expandSSMAssociationOutputLocation, specOutputLocationObject]
    · simp [mkUpdateAssociationInput, h, hol, getOkList,
        expandSSMAssociationOutputLocation, specOutputLocationObject]
    · cases hb : b.s3KeyPrefix <;>
        simp [mkUpdateAssociationInput, h, hol, getOkList,
          expandSSMAssociationOutputLocation, specOutputLocationObject, hb]
  · intro inp h1 h2
    simp [resourceAwsSsmAssociationUpdate, h1, h2]

/-- Witness for claim C4: the no-change request, a changed-pair request,
and delegation to Read, at concrete records. -/
theorem update_request_population_and_delegation_witness :
    mkUpdateAssociationInput sampleRecord sampleRecord =
      GoResult.ok { associationId := some "assoc-1" } ∧
    mkUpdateAssociationInput minRecord sampleRecord =
      GoResult.ok
        { associationId := some "assoc-1"
          associationName := some "an"
          documentVersion := some "2"
          scheduleExpression := some "rate(1 day)"
          parameters := some [("k", ["v"])]
          targets := some [{ key := some "tag:Name", values := ["web"] }]
          outputLocation := some { s3Location := some { outputS3BucketName := some "bkt", outputS3KeyPrefix := some "pre" } } } ∧
    resourceAwsSsmAssociationUpdate sampleRecord sampleRecord nilDescRemote =
      resourceAwsSsmAssociationRead sampleRecord nilDescRemote :=
  ⟨(update_request_population_and_delegation sampleRecord sampleRecord nilDescRemote).1
      (by decide),
   (update_request_population_and_delegation minRecord sampleRecord nilDescRemote).2.1
      (by decide),
   (update_request_population_and_delegation sampleRecord sampleRecord nilDescRemote).2.2
      { associationId := some "assoc-1" } (by decide) rfl⟩

end SsmAssociation
